import Mathlib

/-!
Verification of the Pomodoro timer state machine (src/pomodoro.py).

The Python class PomodoroTimer is embedded as a Lean structure; durations
and the progress counter are integers (milliseconds, as in the source).
The methods tick, start_break, start_sprint, extend and run are translated
as pure functions; the blocking input() call at a phase boundary becomes a
String parameter, and Python exceptions (ValueError from int() on a
malformed string, KeyboardInterrupt, AttributeError) become an explicit
result type that carries the object state at the moment the exception is
raised, since a Python exception leaves prior field mutations in place.
-/

/-- Python exceptions relevant to this program. -/
inductive PyExc
  | valueError
  | keyboardInterrupt
  | attributeError
deriving DecidableEq, Repr

/-- State of the PomodoroTimer object: the mutable fields of the Python
class (sound/clock/pushbullet handles are I O glue and carry no clock
state). All times are in milliseconds, as in the source. -/
structure PomodoroTimer where
  counter : Int
  run_time : Int
  in_sprint : Bool
  sprint_time : Int
  break_time : Int
  max_iterations : Int
  iterations : Int
deriving DecidableEq, Repr

/-- Result of a method call: normal return with the new object state, or a
raised exception together with the object state at the raise point. -/
inductive PyResult
  | ok (s : PomodoroTimer)
  | exn (e : PyExc) (s : PomodoroTimer)
deriving DecidableEq, Repr

/-- The object state held in a result, whether returned or at the raise. -/
def PyResult.state : PyResult → PomodoroTimer
  | .ok s => s
  | .exn _ s => s

/-- Constructor body (pomodoro.py lines 83-106): minutes are converted to
milliseconds, the timer starts in a sprint with both counters at zero. -/
def PomodoroTimer.init (s_time b_time iterations : Int) : PomodoroTimer :=
  { counter := 0
    run_time := 0
    in_sprint := true
    sprint_time := s_time * 60 * 1000
    break_time := b_time * 60 * 1000
    max_iterations := iterations
    iterations := 0 }

/-- Digits of a decimal literal, as Python int() accepts after sign
handling: at least one character and every character a digit. -/
def pyParseDigits (cs : List Char) : Option Nat :=
  if cs ≠ [] ∧ cs.all Char.isDigit then
    some (cs.foldl (fun a c => a * 10 + (c.toNat - 48)) 0)
  else
    none

/-- Surrounding whitespace, which Python int() ignores. -/
def pyStripSpace (cs : List Char) : List Char :=
  ((cs.dropWhile Char.isWhitespace).reverse.dropWhile Char.isWhitespace).reverse

/-- Python int(string): surrounding whitespace is ignored, an optional
sign precedes the digits, anything else raises ValueError (none here). -/
def pyParseInt (s : String) : Option Int :=
  match pyStripSpace s.toList with
  | '-' :: rest => (pyParseDigits rest).map (fun n => -(n : Int))
  | '+' :: rest => (pyParseDigits rest).map (fun n => (n : Int))
  | cs => (pyParseDigits cs).map (fun n => (n : Int))

/-- extend (pomodoro.py lines 182-190): sets counter to the current phase
duration minus the requested minutes in milliseconds; no clamping. -/
def PomodoroTimer.extend (time : Int) (s : PomodoroTimer) : PomodoroTimer :=
  if s.in_sprint then
    { s with counter := s.sprint_time - time * 60 * 1000 }
  else
    { s with counter := s.break_time - time * 60 * 1000 }

/-- start_break (pomodoro.py lines 147-162): a non-empty response is fed
to int(); on success extend is called and the method returns without the
phase flip; int() on a malformed string raises ValueError with the object
untouched; an empty response confirms: leave the sprint, reset counter. -/
def PomodoroTimer.start_break (response : String) (s : PomodoroTimer) : PyResult :=
  if response ≠ "" then
    match pyParseInt response with
    | some n => .ok (s.extend n)
    | none => .exn .valueError s
  else
    .ok { s with in_sprint := false, counter := 0 }

/-- start_sprint (pomodoro.py lines 164-180): as start_break but on
confirmation it enters a sprint, resets counter and increments the
iteration count. -/
def PomodoroTimer.start_sprint (response : String) (s : PomodoroTimer) : PyResult :=
  if response ≠ "" then
    match pyParseInt response with
    | some n => .ok (s.extend n)
    | none => .exn .valueError s
  else
    .ok { s with in_sprint := true, counter := 0, iterations := s.iterations + 1 }

/-- The time-advance part of tick (pomodoro.py lines 135-137): the delta
from the pygame clock is added to run_time and counter. -/
def PomodoroTimer.advance (dt : Int) (s : PomodoroTimer) : PomodoroTimer :=
  { s with run_time := s.run_time + dt, counter := s.counter + dt }

/-- The boundary comparison of tick (pomodoro.py lines 139-144): the
counter is strictly greater than the duration of the current phase. -/
def PomodoroTimer.checkBoundary (s : PomodoroTimer) : Bool :=
  if s.in_sprint then s.sprint_time < s.counter else s.break_time < s.counter

/-- tick (pomodoro.py lines 132-144): advance by the clock delta, then if
the counter strictly exceeds the current phase duration run the boundary
interaction, whose outcome depends on the prompt response. -/
def PomodoroTimer.tick (dt : Int) (response : String) (s : PomodoroTimer) : PyResult :=
  let s1 := s.advance dt
  if s1.in_sprint then
    if s1.sprint_time < s1.counter then s1.start_break response else .ok s1
  else
    if s1.break_time < s1.counter then s1.start_sprint response else .ok s1

/-- The duration the counter is compared against in the current phase
(the spec calls this phaseDuration(currentPhase)). -/
def PomodoroTimer.phaseDuration (s : PomodoroTimer) : Int :=
  if s.in_sprint then s.sprint_time else s.break_time

/-- One interaction drawn from the environment: either a clock delta
together with the response the user would give if a prompt occurs in that
tick, or a KeyboardInterrupt (control-C) arriving before the next tick. -/
inductive Event
  | step (dt : Int) (response : String)
  | interrupt
deriving DecidableEq, Repr

/-- Outcome of the driver loop run (pomodoro.py lines 192-199): exited
normally after the while condition failed, raised an exception, or ran
out of scripted events (a model artifact, not a program behavior). -/
inductive RunResult
  | exited (s : PomodoroTimer)
  | raised (e : PyExc) (s : PomodoroTimer)
  | outOfEvents (s : PomodoroTimer)
deriving DecidableEq, Repr

/-- run (pomodoro.py lines 192-199): while iterations is at most
max_iterations, tick; afterwards print the goodbye and exit cleanly.
An exception raised inside tick propagates out of the loop. -/
def PomodoroTimer.run (events : List Event) (s : PomodoroTimer) : RunResult :=
  if s.max_iterations < s.iterations then .exited s
  else
    match events with
    | [] => .outOfEvents s
    | .interrupt :: _ => .raised .keyboardInterrupt s
    | .step dt response :: rest =>
      match s.tick dt response with
      | .ok s1 => PomodoroTimer.run rest s1
      | .exn e s1 => .raised e s1

/-- What the operating system observes when the process ends. -/
structure ProcessExit where
  code : Nat
  message : String
deriving DecidableEq, Repr

/-- The final message printed by a normal completion of run. -/
def finishedMessage : String :=
  "You have finished all iterations of your sprint. Goodbye :)"

/-- The farewell printed by the KeyboardInterrupt handler. -/
def interruptMessage : String := "Goodbye :)"

/-- The interpreter output for an exception that reaches the top of the
process: a traceback naming the exception, and exit status 1. -/
def tracebackMessage : PyExc → String
  | .valueError => "ValueError: invalid literal for int with base 10"
  | .keyboardInterrupt => "KeyboardInterrupt"
  | .attributeError => "AttributeError: NoneType object has no attribute lower"

/-- The top level of the script (pomodoro.py lines 242-250): the run is
wrapped in a try block whose only handler catches KeyboardInterrupt,
prints a farewell and exits with status 0; a normal completion exits with
status 0 from inside run; any other exception escapes uncaught and the
interpreter prints its traceback and exits with status 1. The outOfEvents
outcome means the scripted environment ended first, so no exit occurs. -/
def topLevelMain (r : RunResult) : Option ProcessExit :=
  match r with
  | .exited _ => some { code := 0, message := finishedMessage }
  | .raised .keyboardInterrupt _ => some { code := 0, message := interruptMessage }
  | .raised e _ => some { code := 1, message := tracebackMessage e }
  | .outOfEvents _ => none

/-- Python str.lower on the ASCII strings this program compares. -/
def pyLower (s : String) : String :=
  String.mk (s.toList.map Char.toLower)

/-- Strips leading and trailing newline characters, as the Python call
read().strip applied with a newline argument does. -/
def stripNewlines (s : String) : String :=
  String.mk (((s.toList.dropWhile (fun c => c = '\n')).reverse.dropWhile
    (fun c => c = '\n')).reverse)

/-- Pushbullet key resolution in the main block (pomodoro.py lines
227-239). The argument is None when the flag is absent. The first branch
calls lower() on the value, which on None raises AttributeError before
any other branch is reached; the dead second branch would have read the
default credentials file. The filesystem is abstracted by a file
existence test and a file contents function. -/
def resolvePushbulletKey (arg : Option String) (isFile : String → Bool)
    (readFile : String → String) : Except PyExc (Option String) :=
  match arg with
  | none => .error .attributeError
  | some pb =>
    if pyLower pb = "f" ∨ pyLower pb = "false" then .ok none
    else if arg.isNone ∧ isFile "pushbullet.txt" then
      .ok (some (stripNewlines (readFile "pushbullet.txt")))
    else if isFile pb then
      .ok (some (stripNewlines (readFile pb)))
    else
      .ok (some pb)

/-! Helper lemmas characterising the embedded methods. -/

/-- advance only touches run_time and counter. -/
theorem PomodoroTimer.advance_eq (dt : Int) (s : PomodoroTimer) :
    s.advance dt = { s with run_time := s.run_time + dt, counter := s.counter + dt } := rfl

/-- extend, uniformly over the two phases. -/
theorem PomodoroTimer.extend_eq (n : Int) (s : PomodoroTimer) :
    s.extend n = { s with counter := s.phaseDuration - n * 60 * 1000 } := by
  unfold PomodoroTimer.extend PomodoroTimer.phaseDuration
  cases s.in_sprint <;> simp

/-- The advanced state keeps the phase, so its phase duration agrees. -/
theorem PomodoroTimer.phaseDuration_advance (dt : Int) (s : PomodoroTimer) :
    (s.advance dt).phaseDuration = s.phaseDuration := rfl

/-- tick, phrased through phaseDuration: past the strict boundary it
dispatches to the boundary interaction of the current phase, otherwise it
returns the advanced state. -/
theorem PomodoroTimer.tick_eq (dt : Int) (r : String) (s : PomodoroTimer) :
    s.tick dt r =
      if s.phaseDuration < s.counter + dt then
        (if s.in_sprint then (s.advance dt).start_break r
         else (s.advance dt).start_sprint r)
      else .ok (s.advance dt) := by
  unfold PomodoroTimer.tick PomodoroTimer.phaseDuration PomodoroTimer.advance
  cases s.in_sprint <;> simp

/-- The boundary check holds exactly when the counter strictly exceeds
the current phase duration. -/
theorem PomodoroTimer.checkBoundary_iff (s : PomodoroTimer) :
    s.checkBoundary = true ↔ s.phaseDuration < s.counter := by
  unfold PomodoroTimer.checkBoundary PomodoroTimer.phaseDuration
  cases s.in_sprint <;> simp

/-- Sanity check of the embedded int(): plain and signed decimals parse,
non-numeric and empty strings do not. -/
theorem pyParseInt_checks :
    pyParseInt "5" = some 5 ∧ pyParseInt "-3" = some (-3) ∧
    pyParseInt "abc" = none ∧ pyParseInt "" = none := by
  decide

/-- Sanity check of the embedded tick on the scenario of the spec: a
61000 ms delta in a one-minute sprint confirms into the break, and the
numeric response 1 extends the sprint to a counter of exactly 0. -/
theorem tick_checks :
    PomodoroTimer.tick 61000 "" (PomodoroTimer.init 1 1 5) =
      .ok { counter := 0, run_time := 61000, in_sprint := false,
            sprint_time := 60000, break_time := 60000,
            max_iterations := 5, iterations := 0 } ∧
    PomodoroTimer.tick 60001 "1" (PomodoroTimer.init 1 1 5) =
      .ok { counter := 0, run_time := 60001, in_sprint := true,
            sprint_time := 60000, break_time := 60000,
            max_iterations := 5, iterations := 0 } := by
  decide

/-- Shared helper: on a strict boundary an empty response flips the
phase, resets the counter to 0 and bumps the iteration count exactly on
entering a sprint. -/
theorem PomodoroTimer.tick_confirm (dt : Int) (s : PomodoroTimer)
    (h : s.phaseDuration < s.counter + dt) :
    s.tick dt "" = .ok ((s.tick dt "").state) ∧
    (s.tick dt "").state.in_sprint = !s.in_sprint ∧
    (s.tick dt "").state.counter = 0 ∧
    (s.tick dt "").state.iterations =
      (if (s.tick dt "").state.in_sprint then s.iterations + 1 else s.iterations) := by
  rw [PomodoroTimer.tick_eq]
  cases hs : s.in_sprint <;>
    simp [h, hs, PomodoroTimer.start_break, PomodoroTimer.start_sprint,
      PomodoroTimer.advance_eq, PyResult.state]

/-! Claim theorems. -/

/-- C1: on a confirmed transition (empty response at a phase boundary)
the phase flips to its opposite and the counter resets to exactly 0; the
iteration count is incremented by exactly 1 when and only when the new
phase is the sprint phase (a break-to-sprint transition) and is unchanged
on a sprint-to-break transition; the iteration count never decreases
under any operation (tick with any response, or extend). -/
theorem tick_confirmed_transition (s : PomodoroTimer) (dt n : Int) (r : String) :
    (s.phaseDuration < s.counter + dt →
      s.tick dt "" = .ok ((s.tick dt "").state) ∧
      (s.tick dt "").state.in_sprint = !s.in_sprint ∧
      (s.tick dt "").state.counter = 0 ∧
      (s.tick dt "").state.iterations =
        (if (s.tick dt "").state.in_sprint then s.iterations + 1 else s.iterations)) ∧
    s.iterations ≤ ((s.tick dt r).state).iterations ∧
    (s.extend n).iterations = s.iterations := by
  refine ⟨PomodoroTimer.tick_confirm dt s, ?_, ?_⟩
  · rw [PomodoroTimer.tick_eq]
    by_cases h : s.phaseDuration < s.counter + dt
    · by_cases hr : r = ""
      · subst hr
        cases hs : s.in_sprint <;>
          simp [h, hs, PomodoroTimer.start_break, PomodoroTimer.start_sprint,
            PomodoroTimer.advance_eq, PyResult.state]
      · cases hp : pyParseInt r <;> cases hs : s.in_sprint <;>
          simp [h, hs, hr, hp, PomodoroTimer.start_break, PomodoroTimer.start_sprint,
            PomodoroTimer.extend_eq, PomodoroTimer.advance_eq, PyResult.state]
    · simp [h, PyResult.state, PomodoroTimer.advance_eq]
  · rw [PomodoroTimer.extend_eq]

/-- C1 witness: one confirmed sprint-to-break transition and one
confirmed break-to-sprint transition, on concrete states. -/
theorem tick_confirmed_transition_witness :
    ((PomodoroTimer.init 1 1 5).phaseDuration < (PomodoroTimer.init 1 1 5).counter + 61000 ∧
      ((PomodoroTimer.init 1 1 5).tick 61000 "").state.in_sprint = false ∧
      ((PomodoroTimer.init 1 1 5).tick 61000 "").state.counter = 0 ∧
      ((PomodoroTimer.init 1 1 5).tick 61000 "").state.iterations = 0) ∧
    (((PomodoroTimer.init 1 1 5).tick 61000 "").state.tick 61000 "").state.iterations = 1 := by
  have h1 := tick_confirmed_transition (PomodoroTimer.init 1 1 5) 61000 0 ""
  have h2 := tick_confirmed_transition ((PomodoroTimer.init 1 1 5).tick 61000 "").state 61000 0 ""
  refine ⟨⟨by decide, ?_, ?_, ?_⟩, ?_⟩
  · exact (h1.1 (by decide)).2.1
  · exact (h1.1 (by decide)).2.2.1
  · have := (h1.1 (by decide)).2.2.2
    simpa using this
  · have := (h2.1 (by decide)).2.2.2
    simpa using this

/-- C2: after each advance the boundary check is true iff the counter is
strictly greater than the duration of the current phase; a counter
exactly equal to the phase duration does not trigger a transition, the
tick simply returns the advanced state. -/
theorem checkBoundary_strict (s : PomodoroTimer) (dt : Int) (r : String) :
    (s.checkBoundary = true ↔ s.phaseDuration < s.counter) ∧
    ((s.advance dt).checkBoundary = false → s.tick dt r = .ok (s.advance dt)) ∧
    (s.counter + dt = s.phaseDuration →
      s.tick dt r = .ok (s.advance dt) ∧
      (s.advance dt).in_sprint = s.in_sprint ∧
      (s.advance dt).counter = s.counter + dt) ∧
    (s.phaseDuration < s.counter + dt →
      (s.advance dt).checkBoundary = true ∧
      (s.tick dt "").state.in_sprint = !s.in_sprint) := by
  refine ⟨PomodoroTimer.checkBoundary_iff s, ?_, ?_, ?_⟩
  · intro h
    have h2 : ¬ s.phaseDuration < s.counter + dt := by
      intro hlt
      have hb : (s.advance dt).checkBoundary = true := by
        rw [PomodoroTimer.checkBoundary_iff, PomodoroTimer.phaseDuration_advance,
          PomodoroTimer.advance_eq]
        simpa using hlt
      rw [hb] at h
      cases h
    rw [PomodoroTimer.tick_eq, if_neg h2]
  · intro h
    refine ⟨?_, rfl, rfl⟩
    rw [PomodoroTimer.tick_eq]
    simp
    intro hlt
    omega
  · intro h
    constructor
    · rw [PomodoroTimer.checkBoundary_iff, PomodoroTimer.phaseDuration_advance,
        PomodoroTimer.advance_eq]
      exact h
    · exact (PomodoroTimer.tick_confirm dt s h).2.1

/-- C2 witness: at a counter exactly equal to the phase duration no
transition fires, and one millisecond later the boundary check is true
and a confirmed tick flips the phase. -/
theorem checkBoundary_strict_witness :
    ((PomodoroTimer.init 1 1 5).tick 60000 "" = .ok ((PomodoroTimer.init 1 1 5).advance 60000)) ∧
    ((PomodoroTimer.init 1 1 5).advance 60001).checkBoundary = true := by
  have h1 := checkBoundary_strict (PomodoroTimer.init 1 1 5) 60000 ""
  have h2 := checkBoundary_strict (PomodoroTimer.init 1 1 5) 60001 ""
  exact ⟨(h1.2.2.1 (by decide)).1, (h2.2.2.2 (by decide)).1⟩

/-- C3: extend sets the counter to the current phase duration minus N
minutes in milliseconds (sprint_time in a sprint, break_time in a break),
with no clamping even when the result is negative, and leaves the phase
and the iteration count unchanged; a numeric response at a boundary
prompt calls extend and no transition occurs: the phase is not flipped,
the counter takes the extend value rather than the transition reset, and
the iteration count is untouched. -/
theorem extend_semantics (s : PomodoroTimer) (dt n : Int) (r : String) :
    ((s.extend n).counter = s.phaseDuration - n * 60 * 1000 ∧
     (s.extend n).in_sprint = s.in_sprint ∧
     (s.extend n).iterations = s.iterations ∧
     (s.phaseDuration < n * 60 * 1000 → (s.extend n).counter < 0)) ∧
    (s.phaseDuration < s.counter + dt → pyParseInt r = some n → r ≠ "" →
      s.tick dt r = .ok ((s.advance dt).extend n) ∧
      (s.tick dt r).state.in_sprint = s.in_sprint ∧
      (s.tick dt r).state.iterations = s.iterations ∧
      (s.tick dt r).state.counter = s.phaseDuration - n * 60 * 1000) := by
  constructor
  · rw [PomodoroTimer.extend_eq]
    refine ⟨rfl, rfl, rfl, ?_⟩
    intro h
    simp
    omega
  · intro h hp hr
    rw [PomodoroTimer.tick_eq, if_pos h]
    cases hs : s.in_sprint <;>
      simp [hs, hr, hp, PomodoroTimer.start_break, PomodoroTimer.start_sprint,
        PomodoroTimer.extend_eq, PomodoroTimer.advance_eq, PyResult.state,
        PomodoroTimer.phaseDuration]

/-- C3 witness: in a sprint of one minute, a boundary answered with 5
extends instead of transitioning, and an oversized extension of 2 minutes
drives the counter negative without clamping. -/
theorem extend_semantics_witness :
    ((PomodoroTimer.init 1 1 5).tick 60001 "5").state.counter = -240000 ∧
    ((PomodoroTimer.init 1 1 5).tick 60001 "5").state.in_sprint = true ∧
    ((PomodoroTimer.init 1 1 5).tick 60001 "5").state.iterations = 0 ∧
    ((PomodoroTimer.init 1 1 5).extend 2).counter < 0 := by
  have h := extend_semantics (PomodoroTimer.init 1 1 5) 60001 5 "5"
  have h2 := extend_semantics (PomodoroTimer.init 1 1 5) 0 2 ""
  obtain ⟨-, hb⟩ := h
  obtain ⟨ht, hin, hit, hc⟩ := hb (by decide) (by decide) (by decide)
  exact ⟨hc, hin, hit, h2.1.2.2.2 (by decide)⟩

/-- C9: for every strictly negative N, extend sets the counter to the
current phase duration plus the absolute value of N in milliseconds,
strictly above the phase duration, so after any non-negative advance the
boundary check is true on the very next tick. -/
theorem extend_negative_shrinks (s : PomodoroTimer) (n dt : Int)
    (hn : n < 0) (hdt : 0 ≤ dt) :
    (s.extend n).counter = s.phaseDuration + (-n) * 60 * 1000 ∧
    s.phaseDuration < (s.extend n).counter ∧
    ((s.extend n).advance dt).checkBoundary = true := by
  rw [PomodoroTimer.extend_eq]
  refine ⟨by ring, by simp; nlinarith, ?_⟩
  rw [PomodoroTimer.checkBoundary_iff, PomodoroTimer.phaseDuration_advance,
    PomodoroTimer.advance_eq]
  simp [PomodoroTimer.phaseDuration]
  cases s.in_sprint <;> simp <;> nlinarith

/-- C9 witness: extending a one-minute sprint by -1 puts the counter one
minute past the boundary and the next tick with a zero delta already
sees the boundary check true. -/
theorem extend_negative_shrinks_witness :
    (-1 : Int) < 0 ∧ (0 : Int) ≤ 0 ∧
    ((PomodoroTimer.init 1 1 5).extend (-1)).counter = 120000 ∧
    (((PomodoroTimer.init 1 1 5).extend (-1)).advance 0).checkBoundary = true := by
  have h := extend_negative_shrinks (PomodoroTimer.init 1 1 5) (-1) 0 (by decide) (by decide)
  exact ⟨by decide, by decide, by simpa using h.1, h.2.2⟩

/-- C10: a single tick performs at most one phase transition and
increments the iteration count by at most 1 however large the delta is,
and whenever the phase changes within a tick the counter is reset to
exactly 0, discarding any overshoot beyond the phase duration. -/
theorem tick_single_transition (s : PomodoroTimer) (dt : Int) (r : String) :
    ((s.tick dt r).state.iterations = s.iterations ∨
     (s.tick dt r).state.iterations = s.iterations + 1) ∧
    ((s.tick dt r).state.in_sprint ≠ s.in_sprint → (s.tick dt r).state.counter = 0) := by
  rw [PomodoroTimer.tick_eq]
  by_cases h : s.phaseDuration < s.counter + dt
  · rw [if_pos h]
    by_cases hr : r = ""
    · subst hr
      cases hs : s.in_sprint <;>
        simp [hs, PomodoroTimer.start_break, PomodoroTimer.start_sprint,
          PomodoroTimer.advance_eq, PyResult.state]
    · cases hp : pyParseInt r <;> cases hs : s.in_sprint <;>
        simp [hs, hr, hp, PomodoroTimer.start_break, PomodoroTimer.start_sprint,
          PomodoroTimer.extend_eq, PomodoroTimer.advance_eq, PyResult.state]
  · rw [if_neg h]
    simp [PomodoroTimer.advance_eq, PyResult.state]

/-- C10 witness: a delta spanning many full phases still flips the phase
only once, adds at most one iteration, and resets the counter to 0. -/
theorem tick_single_transition_witness :
    ((PomodoroTimer.init 1 1 5).tick 100000000 "").state.counter = 0 ∧
    (((PomodoroTimer.init 1 1 5).tick 100000000 "").state.iterations = 0 ∨
     ((PomodoroTimer.init 1 1 5).tick 100000000 "").state.iterations = 0 + 1) := by
  have h := tick_single_transition (PomodoroTimer.init 1 1 5) 100000000 ""
  exact ⟨h.2 (by decide), h.1⟩

/-- C5 counterexample: in a one-minute sprint a tick of 60001 ms reaches
the boundary with the counter at 60001; the response 1 extends, setting
the counter to 60000 - 60000 = 0 with the phase and iteration count
untouched. The counter thus returns to exactly 0 with no confirmed
transition, and decreases (from 60001 to 0) between two transitions,
refuting the claim that between transitions the counter is monotonically
non-decreasing and only returns to 0 via a confirmed transition. -/
theorem advance_monotone_cex :
    (((PomodoroTimer.init 1 1 5).advance 60001).counter = 60001 ∧
      ((PomodoroTimer.init 1 1 5).advance 60001).checkBoundary = true) ∧
    ((PomodoroTimer.init 1 1 5).tick 60001 "1").state.counter = 0 ∧
    ((PomodoroTimer.init 1 1 5).tick 60001 "1").state.in_sprint =
      (PomodoroTimer.init 1 1 5).in_sprint ∧
    ((PomodoroTimer.init 1 1 5).tick 60001 "1").state.iterations =
      (PomodoroTimer.init 1 1 5).iterations := by
  decide

/-- C5 amended: advance adds exactly the delta to the counter and to
run_time and has no other effect, so under non-negative deltas the
counter never decreases as long as no boundary interaction runs, and a
tick that stays strictly within the phase duration returns exactly the
advanced state; a confirmed boundary transition resets the counter to 0,
but an extension response can also lower the counter (even to exactly 0)
without any transition, so the counter is non-decreasing only on
advance steps, not across boundary prompts. -/
theorem advance_monotone (s : PomodoroTimer) (dt : Int) (r : String) (hdt : 0 ≤ dt) :
    (s.advance dt).counter = s.counter + dt ∧
    (s.advance dt).run_time = s.run_time + dt ∧
    (s.advance dt).in_sprint = s.in_sprint ∧
    (s.advance dt).iterations = s.iterations ∧
    (s.advance dt).sprint_time = s.sprint_time ∧
    (s.advance dt).break_time = s.break_time ∧
    (s.advance dt).max_iterations = s.max_iterations ∧
    s.counter ≤ (s.advance dt).counter ∧
    (¬ s.phaseDuration < s.counter + dt → s.tick dt r = .ok (s.advance dt)) ∧
    (s.phaseDuration < s.counter + dt → (s.tick dt "").state.counter = 0) := by
  rw [PomodoroTimer.advance_eq]
  refine ⟨rfl, rfl, rfl, rfl, rfl, rfl, rfl, by simp; omega, ?_, ?_⟩
  · intro h
    rw [PomodoroTimer.tick_eq, if_neg h, PomodoroTimer.advance_eq]
  · intro h
    exact (PomodoroTimer.tick_confirm dt s h).2.2.1

/-- C5 amended witness: a concrete in-phase tick adds the delta; a
concrete confirmed transition resets the counter. -/
theorem advance_monotone_witness :
    ((PomodoroTimer.init 1 1 5).advance 30000).counter = 30000 ∧
    (PomodoroTimer.init 1 1 5).tick 30000 "" = .ok ((PomodoroTimer.init 1 1 5).advance 30000) ∧
    ((PomodoroTimer.init 1 1 5).tick 60001 "").state.counter = 0 := by
  have h1 := advance_monotone (PomodoroTimer.init 1 1 5) 30000 "" (by decide)
  have h2 := advance_monotone (PomodoroTimer.init 1 1 5) 60001 "" (by decide)
  refine ⟨?_, h1.2.2.2.2.2.2.2.2.1 (by decide), h2.2.2.2.2.2.2.2.2.2 (by decide)⟩
  have := h1.1
  simpa using this

/-- Shared helper: any state from which run exits has an iteration count
strictly above max_iterations, by induction along the event list. -/
theorem PomodoroTimer.run_exited (events : List Event) :
    ∀ s s1 : PomodoroTimer, PomodoroTimer.run events s = .exited s1 →
      s1.max_iterations < s1.iterations := by
  induction events with
  | nil =>
    intro s s1 h
    unfold PomodoroTimer.run at h
    by_cases hc : s.max_iterations < s.iterations
    · rw [if_pos hc] at h
      cases h
      exact hc
    · rw [if_neg hc] at h
      cases h
  | cons e rest ih =>
    intro s s1 h
    unfold PomodoroTimer.run at h
    by_cases hc : s.max_iterations < s.iterations
    · rw [if_pos hc] at h
      cases h
      exact hc
    · rw [if_neg hc] at h
      cases e with
      | interrupt => cases h
      | step dt r =>
        simp only at h
        cases htick : PomodoroTimer.tick dt r s with
        | ok s2 =>
          rw [htick] at h
          exact ih s2 s1 h
        | exn e2 s2 =>
          rw [htick] at h
          cases h

/-- C4: the driver loop exits exactly when the iteration count exceeds
max_iterations and never before: while the iteration count is at most
max_iterations the loop performs another tick; every state in which run
exits satisfies max_iterations strictly less than the iteration count;
and once that holds the loop exits at once, performing no further tick
or boundary check, ending the run cleanly in the same state. -/
theorem run_terminates (events rest : List Event) (s s1 : PomodoroTimer)
    (dt : Int) (r : String) :
    (PomodoroTimer.run events s = .exited s1 → s1.max_iterations < s1.iterations) ∧
    (s.iterations ≤ s.max_iterations →
      PomodoroTimer.run (Event.step dt r :: rest) s =
        (match s.tick dt r with
         | .ok s2 => PomodoroTimer.run rest s2
         | .exn e s2 => RunResult.raised e s2)) ∧
    (s.max_iterations < s.iterations → PomodoroTimer.run events s = .exited s) := by
  refine ⟨PomodoroTimer.run_exited events s s1, ?_, ?_⟩
  · intro h
    conv_lhs => unfold PomodoroTimer.run
    rw [if_neg (by omega)]
  · intro h
    unfold PomodoroTimer.run
    cases events <;> rw [if_pos h]

/-- C4 witness: a state already past the bound exits untouched, and a
state within the bound runs one more tick. -/
theorem run_terminates_witness :
    PomodoroTimer.run [] (PomodoroTimer.init 1 1 (-1)) =
      .exited (PomodoroTimer.init 1 1 (-1)) ∧
    (PomodoroTimer.init 1 1 (-1)).max_iterations < (PomodoroTimer.init 1 1 (-1)).iterations ∧
    PomodoroTimer.run [Event.step 0 ""] (PomodoroTimer.init 1 1 5) =
      (match (PomodoroTimer.init 1 1 5).tick 0 "" with
       | .ok s2 => PomodoroTimer.run [] s2
       | .exn e s2 => RunResult.raised e s2) := by
  have h := run_terminates [] [] (PomodoroTimer.init 1 1 (-1)) (PomodoroTimer.init 1 1 (-1)) 0 ""
  have h2 := run_terminates [] [] (PomodoroTimer.init 1 1 5) (PomodoroTimer.init 1 1 5) 0 ""
  have hx := h.2.2 (by decide)
  exact ⟨hx, h.1 hx, h2.2.1 (by decide)⟩

/-- C6: a non-empty non-numeric boundary response raises a parse error
(ValueError from int()) instead of being treated as a confirmation or a
zero extension: the boundary operation leaves phase, counter and
iteration count untouched at the raise point, and the error surfaces to
the user as the interpreter error report for the uncaught ValueError
rather than being swallowed. -/
theorem malformed_response_error (s : PomodoroTimer) (dt : Int) (r : String)
    (hr : r ≠ "") (hp : pyParseInt r = none) :
    s.start_break r = .exn .valueError s ∧
    s.start_sprint r = .exn .valueError s ∧
    (s.phaseDuration < s.counter + dt →
      s.tick dt r = .exn .valueError (s.advance dt) ∧
      (s.tick dt r).state.in_sprint = s.in_sprint ∧
      (s.tick dt r).state.iterations = s.iterations ∧
      (s.tick dt r).state.counter = s.counter + dt) ∧
    topLevelMain (.raised .valueError s) =
      some { code := 1, message := tracebackMessage .valueError } := by
  refine ⟨?_, ?_, ?_, rfl⟩
  · simp [PomodoroTimer.start_break, hr, hp]
  · simp [PomodoroTimer.start_sprint, hr, hp]
  · intro h
    rw [PomodoroTimer.tick_eq, if_pos h]
    cases hs : s.in_sprint <;>
      simp [hs, hr, hp, PomodoroTimer.start_break, PomodoroTimer.start_sprint,
        PomodoroTimer.advance_eq, PyResult.state]

/-- C6 witness: the response abc at a sprint boundary raises ValueError
with the clock state unchanged by the prompt operation. -/
theorem malformed_response_error_witness :
    (PomodoroTimer.init 1 1 5).tick 60001 "abc" =
      .exn .valueError ((PomodoroTimer.init 1 1 5).advance 60001) ∧
    ((PomodoroTimer.init 1 1 5).tick 60001 "abc").state.in_sprint = true ∧
    ((PomodoroTimer.init 1 1 5).tick 60001 "abc").state.iterations = 0 := by
  have h := malformed_response_error (PomodoroTimer.init 1 1 5) 60001 "abc"
    (by decide) (by decide)
  obtain ⟨-, -, hb, -⟩ := h
  obtain ⟨h1, h2, h3, -⟩ := hb (by decide)
  exact ⟨h1, h2, h3⟩

/-- C7: evaluating the pushbullet key resolution. With the flag absent
the code calls lower() on None and raises AttributeError on any
filesystem, instead of falling back to the pushbullet.txt credentials
file as claimed; the disable values f and False, a value naming an
existing file, and a plain key value behave as the claim describes. -/
theorem pushbullet_key_resolution (isFile : String → Bool) (readFile : String → String) :
    resolvePushbulletKey none isFile readFile = .error .attributeError ∧
    resolvePushbulletKey (some "False") isFile readFile = .ok none ∧
    resolvePushbulletKey (some "F") isFile readFile = .ok none ∧
    (isFile "mykey.txt" = true →
      resolvePushbulletKey (some "mykey.txt") isFile readFile =
        .ok (some (stripNewlines (readFile "mykey.txt")))) ∧
    (isFile "abc123key" = false →
      resolvePushbulletKey (some "abc123key") isFile readFile = .ok (some "abc123key")) := by
  refine ⟨rfl, ?_, ?_, ?_, ?_⟩
  · have hl : pyLower "False" = "false" := by decide
    simp [resolvePushbulletKey, hl]
  · have hl : pyLower "F" = "f" := by decide
    simp [resolvePushbulletKey, hl]
  · intro h
    have hl1 : pyLower "mykey.txt" ≠ "f" := by decide
    have hl2 : pyLower "mykey.txt" ≠ "false" := by decide
    simp [resolvePushbulletKey, hl1, hl2, h]
  · intro h
    have hl1 : pyLower "abc123key" ≠ "f" := by decide
    have hl2 : pyLower "abc123key" ≠ "false" := by decide
    simp [resolvePushbulletKey, hl1, hl2, h]

/-- C7 witness: the branches evaluated on a concrete filesystem with a
single key file holding a key and a trailing newline. -/
theorem pushbullet_key_resolution_witness :
    resolvePushbulletKey none (fun p => p == "mykey.txt") (fun _ => "KEY123\n") =
      .error .attributeError ∧
    resolvePushbulletKey (some "mykey.txt") (fun p => p == "mykey.txt")
      (fun _ => "KEY123\n") = .ok (some "KEY123") := by
  have h := pushbullet_key_resolution (fun p => p == "mykey.txt") (fun _ => "KEY123\n")
  refine ⟨h.1, ?_⟩
  have h2 := h.2.2.2.1 (by decide)
  have hs : stripNewlines "KEY123\n" = "KEY123" := by decide
  rw [h2, hs]

/-- C8: a KeyboardInterrupt arriving at any point while the driver loop
is running propagates to the single top-level handler, which prints the
farewell message rather than a stack trace and the process exits with
status 0. -/
theorem interrupt_graceful (events rest : List Event) (s s1 : PomodoroTimer) :
    topLevelMain (.raised .keyboardInterrupt s) =
      some { code := 0, message := interruptMessage } ∧
    (s.iterations ≤ s.max_iterations →
      PomodoroTimer.run (Event.interrupt :: rest) s = .raised .keyboardInterrupt s) ∧
    (PomodoroTimer.run events s = .raised .keyboardInterrupt s1 →
      topLevelMain (PomodoroTimer.run events s) =
        some { code := 0, message := interruptMessage }) := by
  refine ⟨rfl, ?_, ?_⟩
  · intro h
    unfold PomodoroTimer.run
    rw [if_neg (by omega)]
  · intro h
    rw [h]
    rfl

/-- C8 witness: an interrupt on the first loop pass of a fresh timer is
caught and turned into a clean status-0 farewell. -/
theorem interrupt_graceful_witness :
    PomodoroTimer.run [Event.interrupt] (PomodoroTimer.init 1 1 5) =
      .raised .keyboardInterrupt (PomodoroTimer.init 1 1 5) ∧
    topLevelMain (PomodoroTimer.run [Event.interrupt] (PomodoroTimer.init 1 1 5)) =
      some { code := 0, message := interruptMessage } := by
  have h := interrupt_graceful [Event.interrupt] [] (PomodoroTimer.init 1 1 5)
    (PomodoroTimer.init 1 1 5)
  have h1 := h.2.1 (by decide)
  exact ⟨h1, h.2.2 h1⟩
